import Mathlib

/-!
Shallow embedding of the TCE backend (backend/src/server.js), covering:

* the trip-creation endpoint `POST /api/services-hierarchie`
  (field presence check, duration arithmetic with midnight wraparound,
  line operating-window check, anti-duplication lookup, create);
* the check-in creation endpoint `POST /api/pointages`
  (field presence check, service status update, check-in create);
* the readiness middleware (`noDbPaths` allowlist and the `prismaReady`
  flag set by the one-time startup probe), together with the CORS
  middleware registered before it, which short-circuits OPTIONS
  preflight requests.

Times of day are `"HH:MM"` strings in the source; a well-formed string is
represented here by its hour/minute pair, and `minutesOf` mirrors the
source's `h * 60 + m` computation.  Arithmetic is over `Int`, matching
JavaScript number arithmetic on these values.  Persistence is a record of
lists; each endpoint returns its outcome together with the trace of
persistence operations it performed and the updated store.
-/

namespace TCE

/-- An hour/minute pair, the parsed form of a well-formed `"HH:MM"` string
(`split(':').map(Number)` in the source). -/
structure HM where
  h : Nat
  m : Nat
deriving DecidableEq, Repr

/-- `h * 60 + m`, the minutes-since-midnight computation of the source
(`const minutesDebut = hDebut * 60 + mDebut`). -/
def minutesOf (t : HM) : Int := t.h * 60 + t.m

/-- A `"HH:MM"` string is well formed when the hour is 0–23 and the minute
0–59. -/
def wellFormed (t : HM) : Prop := t.h ≤ 23 ∧ t.m ≤ 59

instance (t : HM) : Decidable (wellFormed t) := by
  unfold wellFormed; infer_instance

/-- A Line (`ligne`) record as the validator reads it: its id and the optional
operating-window bounds `heureDebut` / `heureFin`.  A bound that is absent or
an empty string in the database is `none` here (both are falsy in the
source's `ligne.heureDebut && ligne.heureFin` test). -/
structure Ligne where
  id : String
  heureDebut : Option HM
  heureFin : Option HM
deriving DecidableEq, Repr

/-- A Trip (`service`) row with the fields the endpoint reads and writes.
`date` is the stored calendar date, kept opaque as a string. -/
structure Service where
  id : String
  sensId : String
  ligneId : Option String
  heureDebut : HM
  heureFin : HM
  statut : String
  date : String
deriving DecidableEq, Repr

/-- The persistence store visible to the trip-creation endpoint. -/
structure Db where
  lignes : List Ligne
  services : List Service
deriving DecidableEq, Repr

/-- The body of a `POST /api/services-hierarchie` request.  String fields are
`Option String`; the time fields are `Option HM` (absent or empty-string
times are `none`, both falsy in the source's presence test). -/
structure CreateServiceReq where
  sensId : Option String
  ligneId : Option String
  heureDebut : Option HM
  heureFin : Option HM
  date : Option String
  statut : Option String
deriving DecidableEq, Repr

/-- JavaScript falsiness of an optional string field: absent or `""`. -/
def isBlank : Option String → Bool
  | none => true
  | some s => s == ""

/-- The distinct 400-class validation errors of the trip-creation endpoint,
one constructor per `return res.status(400)` site. -/
inductive CreateErr where
  /-- `Missing fields: sensId, heureDebut, heureFin` -/
  | missingFields
  /-- `Service duration exceeds 10 hours ...` -/
  | durationExceeds
  /-- `End time must be after start time` -/
  | endBeforeStart
  /-- wrapping window: `Service must start between X and Y (next day)` -/
  | startOutsideWindow
  /-- wrapping window: `Service cannot end after X` -/
  | endAfterCloseWrap
  /-- non-wrapping window: `Service must start at or after X` -/
  | startBeforeOpens
  /-- non-wrapping window: `Service must end before or at X` -/
  | endAfterClose
  /-- the handler's `catch` answering 400 for the `PrismaClientValidationError`
  thrown by `findUnique({ where: { id: undefined } })` when the request
  carries no `ligneId` -/
  | findUniqueThrow
deriving DecidableEq, Repr

/-- What the endpoint answered: a 400 validation error, the pre-existing row
flagged `duplicate: true`, or the newly created row. -/
inductive CreateOutcome where
  | error (e : CreateErr)
  | duplicate (s : Service)
  | created (s : Service)
deriving DecidableEq, Repr

/-- One persistence operation, in the order the endpoint performs them. -/
inductive DbOp where
  /-- `prisma.ligne.findUnique` -/
  | readLigne
  /-- `prisma.service.findFirst` (anti-duplication lookup) -/
  | readDup
  /-- `prisma.service.create` -/
  | writeService
deriving DecidableEq, Repr

/-- Number of persistence writes in a trace. -/
def writeCount (t : List DbOp) : Nat := t.count DbOp.writeService

/-- Result of one request: outcome, persistence trace, final store. -/
structure CreateResult where
  outcome : CreateOutcome
  trace : List DbOp
  db : Db
deriving DecidableEq, Repr

/-- The duration computation of the source:
`let dureeService = minutesFin - minutesDebut;`
`if (dureeService < 0) dureeService = (1440 - minutesDebut) + minutesFin;`. -/
def dureeService (minutesDebut minutesFin : Int) : Int :=
  if minutesFin - minutesDebut < 0 then (1440 - minutesDebut) + minutesFin
  else minutesFin - minutesDebut

/-- The line operating-window check (source lines 1184–1233).  `none` means
the check passed (or was skipped because no line / no configured window).
In the source the wrapping-window start check is an if / else-if / else
chain whose else returns; reaching the subsequent end check therefore means
one of the two OK branches was taken, which is how it is rendered here.
A `none` line argument means the lookup matched no row (`ligne` falsy in
the source), which skips the check. -/
def windowCheck (ligne : Option Ligne) (minutesDebut minutesFin : Int) :
    Option CreateErr :=
  match ligne with
  | none => none
  | some l =>
    match l.heureDebut, l.heureFin with
    | some lhd, some lhf =>
      let minutesLigneDebut := minutesOf lhd
      let minutesLigneFin := minutesOf lhf
      let lignePasseMinuit := minutesLigneFin < minutesLigneDebut
      if lignePasseMinuit then
        if minutesDebut ≥ minutesLigneDebut ∨ minutesDebut ≤ minutesLigneFin then
          if minutesFin > minutesLigneFin ∧ minutesDebut ≥ minutesLigneDebut ∧
              minutesFin < minutesDebut then
            some CreateErr.endAfterCloseWrap
          else
            none
        else
          some CreateErr.startOutsideWindow
      else
        if minutesDebut < minutesLigneDebut then
          some CreateErr.startBeforeOpens
        else if minutesFin > minutesLigneFin then
          some CreateErr.endAfterClose
        else
          none
    | _, _ => none

/-- The `where` filter of the anti-duplication `findFirst`:
`{ sensId, date: b.date ? new Date(b.date) : undefined, heureDebut, heureFin }`.
`dateOpt` is the normalized date filter: `none` when `b.date` is falsy, in
which case the filter is `undefined` and the date column is not constrained. -/
def dupMatches (sid : String) (dateOpt : Option String) (hd hf : HM)
    (s : Service) : Bool :=
  s.sensId == sid &&
  (match dateOpt with
   | some d => s.date == d
   | none => true) &&
  s.heureDebut == hd && s.heureFin == hf

/-- `prisma.ligne.findUnique({ where: { id: b.ligneId } })` (source line
1185).  With an id present it returns the first line with that id, or
nothing.  With `b.ligneId` absent the client strips the undefined value,
is left with an empty unique filter, and throws a
`PrismaClientValidationError` while validating its arguments — before any
query is issued — which the handler's `catch` answers as a 400. -/
def findLigne (db : Db) : Option String → Except Unit (Option Ligne)
  | some lid => Except.ok (db.lignes.find? (fun l => l.id == lid))
  | none => Except.error ()

/-- The normalized date filter/value
(`b.date ? new Date(b.date) : undefined` resp. `: new Date()`):
`none` when the request's date is absent or empty (falsy). -/
def dateOptOf (dateField : Option String) : Option String :=
  if isBlank dateField then none else dateField

/-- The row `prisma.service.create` inserts: the request fields, status
defaulting to `Planifiée` when falsy, date defaulting to today when falsy. -/
def newService (today freshId : String) (sid : String) (hd hf : HM)
    (ligneId dateField statutField : Option String) : Service :=
  { id := freshId
    sensId := sid
    ligneId := ligneId
    heureDebut := hd
    heureFin := hf
    statut :=
      match statutField with
      | some st => if st == "" then "Planifiée" else st
      | none => "Planifiée"
    date :=
      match dateOptOf dateField with
      | some d => d
      | none => today }

/-- The body of `POST /api/services-hierarchie` after the field-presence
check has passed (source lines 1159–1261): duration checks, line lookup
(whose argument-validation throw on an absent `ligneId` becomes a 400 with
no persistence access), line window check, anti-duplication lookup,
create. -/
def createValidated (db : Db) (today freshId : String) (sid : String)
    (hd hf : HM) (ligneId dateField statutField : Option String) :
    CreateResult :=
  let minutesDebut := minutesOf hd
  let minutesFin := minutesOf hf
  let duree := dureeService minutesDebut minutesFin
  if duree > 600 then
    ⟨CreateOutcome.error CreateErr.durationExceeds, [], db⟩
  else if duree ≤ 0 then
    ⟨CreateOutcome.error CreateErr.endBeforeStart, [], db⟩
  else
    match findLigne db ligneId with
    | Except.error _ =>
      -- the client throws while validating its arguments, before any query
      -- is issued, so no persistence operation is recorded
      ⟨CreateOutcome.error CreateErr.findUniqueThrow, [], db⟩
    | Except.ok ligne =>
      match windowCheck ligne minutesDebut minutesFin with
      | some e => ⟨CreateOutcome.error e, [DbOp.readLigne], db⟩
      | none =>
        match db.services.find? (dupMatches sid (dateOptOf dateField) hd hf) with
        | some existing =>
          ⟨CreateOutcome.duplicate existing, [DbOp.readLigne, DbOp.readDup], db⟩
        | none =>
          let s := newService today freshId sid hd hf ligneId dateField statutField
          ⟨CreateOutcome.created s,
           [DbOp.readLigne, DbOp.readDup, DbOp.writeService],
           { db with services := db.services ++ [s] }⟩

/-- `POST /api/services-hierarchie` (source lines 1152–1266).  `today` is the
current date (`new Date()` on the create path), `freshId` the id the store
assigns to a newly created row. -/
def postServicesHierarchie (db : Db) (today : String) (freshId : String)
    (b : CreateServiceReq) : CreateResult :=
  if isBlank b.sensId || b.heureDebut.isNone || b.heureFin.isNone then
    ⟨CreateOutcome.error CreateErr.missingFields, [], db⟩
  else
    match b.sensId, b.heureDebut, b.heureFin with
    | some sid, some hd, some hf =>
      createValidated db today freshId sid hd hf b.ligneId b.date b.statut
    | _, _, _ =>
      ⟨CreateOutcome.error CreateErr.missingFields, [], db⟩

/-! ### Check-in creation: `POST /api/pointages` (source lines 899–935) -/

/-- A check-in (`pointage`) row with the fields the endpoint writes. -/
structure Pointage where
  id : String
  serviceId : String
  conducteurId : String
  validatedBy : String
  vehicleType : Option String
  permisChecked : Bool
  chronometerChecked : Bool
deriving DecidableEq, Repr

/-- The persistence store visible to the check-in endpoint: the trip rows,
the set of existing conductor ids (the foreign key `conducteurId` must
reference one for `pointage.create` to succeed), and the check-in rows. -/
structure PointageDb where
  services : List Service
  conducteurs : List String
  pointages : List Pointage
deriving DecidableEq, Repr

/-- The body of a `POST /api/pointages` request. -/
structure PointageReq where
  serviceId : Option String
  conducteurId : Option String
  validatedBy : Option String
  vehicleType : Option String
  permisChecked : Bool
  chronometerChecked : Bool
deriving DecidableEq, Repr

/-- What the check-in endpoint answered: a 400 error (missing fields, or a
thrown persistence error caught by the handler) or the created row. -/
inductive PointageOutcome where
  | error
  | created (p : Pointage)
deriving DecidableEq, Repr

/-- `POST /api/pointages`.  The handler marks the referenced service
`Terminée` (`prisma.service.update`, which throws when no row has that id)
BEFORE `prisma.pointage.create`; the create throws when `conducteurId`
references no existing conductor.  Either throw is caught by the handler's
single `catch`, which answers 400 — without undoing the earlier update. -/
def postPointages (db : PointageDb) (freshId : String) (b : PointageReq) :
    PointageOutcome × PointageDb :=
  if isBlank b.serviceId || isBlank b.conducteurId || isBlank b.validatedBy then
    (PointageOutcome.error, db)
  else
    match b.serviceId, b.conducteurId, b.validatedBy with
    | some sid, some cid, some vby =>
      if (db.services.find? (fun s => s.id == sid)).isNone then
        -- service.update throws P2025 (record not found): caught, 400
        (PointageOutcome.error, db)
      else
        let db1 : PointageDb :=
          { db with
            services :=
              db.services.map (fun s =>
                if s.id == sid then { s with statut := "Terminée" } else s) }
        if db1.conducteurs.contains cid then
          let p : Pointage :=
            { id := freshId
              serviceId := sid
              conducteurId := cid
              validatedBy := vby
              vehicleType := b.vehicleType
              permisChecked := b.permisChecked
              chronometerChecked := b.chronometerChecked }
          (PointageOutcome.created p, { db1 with pointages := db1.pointages ++ [p] })
        else
          -- pointage.create throws (foreign key violation): caught, 400;
          -- the status update above is NOT rolled back
          (PointageOutcome.error, db1)
    | _, _, _ => (PointageOutcome.error, db)

/-! ### Readiness gating (source lines 12–13, 45–78, 1506–1525) -/

/-- The allowlist of paths served without a database
(`const noDbPaths = new Set([...])`). -/
def noDbPaths : List String :=
  ["/", "/health", "/api/today", "/api/server-time", "/api/cors-test"]

/-- Where the middleware chain sends a request: an immediate response with
the given status, or on to the matched route handler. -/
inductive MwOutcome where
  | respond (status : Nat)
  | handler
deriving DecidableEq, Repr

/-- The middleware chain ahead of every route handler, in registration
order: the CORS middleware answers any OPTIONS preflight with 200
(`if (req.method === 'OPTIONS') return res.sendStatus(200)`); then the
readiness middleware answers 503 when `prismaReady` is false and the path
is not allowlisted; otherwise the request reaches its route handler. -/
def dispatch (prismaReady : Bool) (method path : String) : MwOutcome :=
  if method == "OPTIONS" then
    MwOutcome.respond 200
  else if !prismaReady && !(noDbPaths.contains path) then
    MwOutcome.respond 503
  else
    MwOutcome.handler

/-- The startup probe outcome (`await prisma.$queryRaw...` racing a 5s
timeout in `startServer`). -/
inductive ProbeEvent where
  | success
  | failure
deriving DecidableEq, Repr

/-- How `startServer` updates `prismaReady` (initially `false`): set to
`true` on a successful probe, left unchanged when the probe throws (the
server still starts, without a database). -/
def startupStep (prismaReady : Bool) : ProbeEvent → Bool
  | ProbeEvent.success => true
  | ProbeEvent.failure => prismaReady

/-! ### The spec's duration formula -/

/-- The duration exactly as the spec words it: `end - start` in minutes when
`end ≥ start`, and `(1440 - start) + end` when `end < start` (midnight
wraparound).  Stated separately from `dureeService` (the source's
computation) so the two can be compared. -/
def claimDuration (startM endM : Int) : Int :=
  if endM ≥ startM then endM - startM else (1440 - startM) + endM

/-- The source's duration computation agrees with the spec's formula. -/
theorem dureeService_eq_claimDuration (startM endM : Int) :
    dureeService startM endM = claimDuration startM endM := by
  unfold dureeService claimDuration
  rcases le_or_lt startM endM with h | h
  · rw [if_neg (by omega), if_pos h]
  · rw [if_pos (by omega), if_neg (by omega)]

/-! ### Helper lemmas about the trip-creation endpoint -/

/-- When the three required fields are present and non-empty, the endpoint
runs the validated body. -/
theorem post_eq_createValidated (db : Db) (today freshId : String)
    (b : CreateServiceReq) (sid : String) (hd hf : HM)
    (hs : b.sensId = some sid) (hsid : ¬ sid = "")
    (hhd : b.heureDebut = some hd) (hhf : b.heureFin = some hf) :
    postServicesHierarchie db today freshId b =
      createValidated db today freshId sid hd hf b.ligneId b.date b.statut := by
  unfold postServicesHierarchie
  rw [hs, hhd, hhf]
  simp [isBlank, hsid]

/-- The window check only ever produces one of the four window errors. -/
theorem windowCheck_mem_cases (ligne : Option Ligne) (md mf : Int)
    (e : CreateErr) (h : windowCheck ligne md mf = some e) :
    e = CreateErr.startOutsideWindow ∨ e = CreateErr.endAfterCloseWrap ∨
      e = CreateErr.startBeforeOpens ∨ e = CreateErr.endAfterClose := by
  rcases ligne with _ | ⟨lid, lhd, lhf⟩
  · simp [windowCheck] at h
  · rcases lhd with _ | lhd <;> rcases lhf with _ | lhf
    · simp [windowCheck] at h
    · simp [windowCheck] at h
    · simp [windowCheck] at h
    · simp only [windowCheck] at h
      split_ifs at h <;> simp_all

/-- Minutes-since-midnight is never negative. -/
theorem minutesOf_nonneg (t : HM) : 0 ≤ minutesOf t := by
  unfold minutesOf; positivity

/-- A well-formed time is below 1440 minutes. -/
theorem minutesOf_lt_1440 (t : HM) (h : wellFormed t) : minutesOf t < 1440 := by
  obtain ⟨h1, h2⟩ := h
  unfold minutesOf
  omega

/-- The source's duration is non-positive exactly for equal start and end
(given a start below 24:00 and a non-negative end). -/
theorem dureeService_nonpos_iff (md mf : Int) (h0 : 0 ≤ mf) (h1 : md < 1440) :
    dureeService md mf ≤ 0 ↔ md = mf := by
  unfold dureeService
  split_ifs <;> omega

/-- Validated body, duration-cap error path. -/
theorem createValidated_of_durationExceeds (db : Db) (today freshId sid : String)
    (hd hf : HM) (ligneId dateField statutField : Option String)
    (h1 : dureeService (minutesOf hd) (minutesOf hf) > 600) :
    createValidated db today freshId sid hd hf ligneId dateField statutField =
      ⟨CreateOutcome.error CreateErr.durationExceeds, [], db⟩ := by
  unfold createValidated
  dsimp only
  rw [if_pos h1]

/-- Validated body, non-positive duration error path. -/
theorem createValidated_of_endBeforeStart (db : Db) (today freshId sid : String)
    (hd hf : HM) (ligneId dateField statutField : Option String)
    (h1 : ¬ dureeService (minutesOf hd) (minutesOf hf) > 600)
    (h2 : dureeService (minutesOf hd) (minutesOf hf) ≤ 0) :
    createValidated db today freshId sid hd hf ligneId dateField statutField =
      ⟨CreateOutcome.error CreateErr.endBeforeStart, [], db⟩ := by
  unfold createValidated
  dsimp only
  rw [if_neg h1, if_pos h2]

/-- Validated body, thrown-`findUnique` path: with an absent `ligneId` the
client throw is caught as a 400 before any persistence access. -/
theorem createValidated_of_ligneThrow (db : Db) (today freshId sid : String)
    (hd hf : HM) (ligneId dateField statutField : Option String)
    (h1 : ¬ dureeService (minutesOf hd) (minutesOf hf) > 600)
    (h2 : ¬ dureeService (minutesOf hd) (minutesOf hf) ≤ 0)
    (hfl : findLigne db ligneId = Except.error ()) :
    createValidated db today freshId sid hd hf ligneId dateField statutField =
      ⟨CreateOutcome.error CreateErr.findUniqueThrow, [], db⟩ := by
  unfold createValidated
  dsimp only
  rw [if_neg h1, if_neg h2, hfl]

/-- Validated body, window-error path. -/
theorem createValidated_of_windowError (db : Db) (today freshId sid : String)
    (hd hf : HM) (ligneId dateField statutField : Option String)
    (lg? : Option Ligne) (e : CreateErr)
    (h1 : ¬ dureeService (minutesOf hd) (minutesOf hf) > 600)
    (h2 : ¬ dureeService (minutesOf hd) (minutesOf hf) ≤ 0)
    (hfl : findLigne db ligneId = Except.ok lg?)
    (hwc : windowCheck lg? (minutesOf hd) (minutesOf hf) = some e) :
    createValidated db today freshId sid hd hf ligneId dateField statutField =
      ⟨CreateOutcome.error e, [DbOp.readLigne], db⟩ := by
  unfold createValidated
  dsimp only
  rw [if_neg h1, if_neg h2, hfl]
  dsimp only
  rw [hwc]

/-- Validated body, duplicate path. -/
theorem createValidated_of_dup (db : Db) (today freshId sid : String)
    (hd hf : HM) (ligneId dateField statutField : Option String)
    (lg? : Option Ligne) (s : Service)
    (h1 : ¬ dureeService (minutesOf hd) (minutesOf hf) > 600)
    (h2 : ¬ dureeService (minutesOf hd) (minutesOf hf) ≤ 0)
    (hfl : findLigne db ligneId = Except.ok lg?)
    (hwc : windowCheck lg? (minutesOf hd) (minutesOf hf) = none)
    (hdup : db.services.find? (dupMatches sid (dateOptOf dateField) hd hf) = some s) :
    createValidated db today freshId sid hd hf ligneId dateField statutField =
      ⟨CreateOutcome.duplicate s, [DbOp.readLigne, DbOp.readDup], db⟩ := by
  unfold createValidated
  dsimp only
  rw [if_neg h1, if_neg h2, hfl]
  dsimp only
  rw [hwc, hdup]

/-- Validated body, create path. -/
theorem createValidated_of_new (db : Db) (today freshId sid : String)
    (hd hf : HM) (ligneId dateField statutField : Option String)
    (lg? : Option Ligne)
    (h1 : ¬ dureeService (minutesOf hd) (minutesOf hf) > 600)
    (h2 : ¬ dureeService (minutesOf hd) (minutesOf hf) ≤ 0)
    (hfl : findLigne db ligneId = Except.ok lg?)
    (hwc : windowCheck lg? (minutesOf hd) (minutesOf hf) = none)
    (hdup : db.services.find? (dupMatches sid (dateOptOf dateField) hd hf) = none) :
    createValidated db today freshId sid hd hf ligneId dateField statutField =
      ⟨CreateOutcome.created (newService today freshId sid hd hf ligneId dateField statutField),
       [DbOp.readLigne, DbOp.readDup, DbOp.writeService],
       { db with services :=
           db.services ++ [newService today freshId sid hd hf ligneId dateField statutField] }⟩ := by
  unfold createValidated
  dsimp only
  rw [if_neg h1, if_neg h2, hfl]
  dsimp only
  rw [hwc, hdup]

/-- Exhaustive description of what the validated body does: one disjunct per
source path (duration error, non-positive duration error, thrown line
lookup, window error, duplicate, create). -/
theorem createValidated_cases (db : Db) (today freshId : String)
    (sid : String) (hd hf : HM) (ligneId dateField statutField : Option String) :
    (dureeService (minutesOf hd) (minutesOf hf) > 600 ∧
      createValidated db today freshId sid hd hf ligneId dateField statutField =
        ⟨CreateOutcome.error CreateErr.durationExceeds, [], db⟩) ∨
    (¬ dureeService (minutesOf hd) (minutesOf hf) > 600 ∧
      dureeService (minutesOf hd) (minutesOf hf) ≤ 0 ∧
      createValidated db today freshId sid hd hf ligneId dateField statutField =
        ⟨CreateOutcome.error CreateErr.endBeforeStart, [], db⟩) ∨
    (¬ dureeService (minutesOf hd) (minutesOf hf) > 600 ∧
      ¬ dureeService (minutesOf hd) (minutesOf hf) ≤ 0 ∧
      findLigne db ligneId = Except.error () ∧
      createValidated db today freshId sid hd hf ligneId dateField statutField =
        ⟨CreateOutcome.error CreateErr.findUniqueThrow, [], db⟩) ∨
    (¬ dureeService (minutesOf hd) (minutesOf hf) > 600 ∧
      ¬ dureeService (minutesOf hd) (minutesOf hf) ≤ 0 ∧
      ∃ lg?, findLigne db ligneId = Except.ok lg? ∧
        ∃ e, windowCheck lg? (minutesOf hd) (minutesOf hf) = some e ∧
          createValidated db today freshId sid hd hf ligneId dateField statutField =
            ⟨CreateOutcome.error e, [DbOp.readLigne], db⟩) ∨
    (¬ dureeService (minutesOf hd) (minutesOf hf) > 600 ∧
      ¬ dureeService (minutesOf hd) (minutesOf hf) ≤ 0 ∧
      ∃ lg?, findLigne db ligneId = Except.ok lg? ∧
        windowCheck lg? (minutesOf hd) (minutesOf hf) = none ∧
        ((∃ s, db.services.find? (dupMatches sid (dateOptOf dateField) hd hf) = some s ∧
            createValidated db today freshId sid hd hf ligneId dateField statutField =
              ⟨CreateOutcome.duplicate s, [DbOp.readLigne, DbOp.readDup], db⟩) ∨
         (db.services.find? (dupMatches sid (dateOptOf dateField) hd hf) = none ∧
            createValidated db today freshId sid hd hf ligneId dateField statutField =
              ⟨CreateOutcome.created
                  (newService today freshId sid hd hf ligneId dateField statutField),
                [DbOp.readLigne, DbOp.readDup, DbOp.writeService],
                { db with services :=
                    db.services ++
                      [newService today freshId sid hd hf ligneId dateField statutField] }⟩))) := by
  by_cases h1 : dureeService (minutesOf hd) (minutesOf hf) > 600
  · exact Or.inl ⟨h1, createValidated_of_durationExceeds db today freshId sid hd hf
      ligneId dateField statutField h1⟩
  · by_cases h2 : dureeService (minutesOf hd) (minutesOf hf) ≤ 0
    · exact Or.inr (Or.inl ⟨h1, h2, createValidated_of_endBeforeStart db today freshId
        sid hd hf ligneId dateField statutField h1 h2⟩)
    · rcases hfl : findLigne db ligneId with u | lg
      · have hfl0 : findLigne db ligneId = Except.error () := hfl
        exact Or.inr (Or.inr (Or.inl ⟨h1, h2, rfl,
          createValidated_of_ligneThrow db today freshId sid hd hf ligneId dateField
            statutField h1 h2 hfl0⟩))
      · rcases hwc : windowCheck lg (minutesOf hd) (minutesOf hf) with _ | e
        · rcases hdup : db.services.find? (dupMatches sid (dateOptOf dateField) hd hf)
            with _ | s
          · exact Or.inr (Or.inr (Or.inr (Or.inr ⟨h1, h2, lg, rfl, hwc,
              Or.inr ⟨rfl, createValidated_of_new db today freshId sid hd hf ligneId
                dateField statutField lg h1 h2 hfl hwc hdup⟩⟩)))
          · exact Or.inr (Or.inr (Or.inr (Or.inr ⟨h1, h2, lg, rfl, hwc,
              Or.inl ⟨s, rfl, createValidated_of_dup db today freshId sid hd hf ligneId
                dateField statutField lg s h1 h2 hfl hwc hdup⟩⟩)))
        · exact Or.inr (Or.inr (Or.inr (Or.inl ⟨h1, h2, lg, rfl, e, hwc,
            createValidated_of_windowError db today freshId sid hd hf ligneId dateField
              statutField lg e h1 h2 hfl hwc⟩)))

/-- The window check against a line whose window does not wrap midnight. -/
theorem windowCheck_nonwrapping (l : Ligne) (lhd lhf : HM) (md mf : Int)
    (hl1 : l.heureDebut = some lhd) (hl2 : l.heureFin = some lhf)
    (hnw : ¬ minutesOf lhf < minutesOf lhd) :
    windowCheck (some l) md mf =
      if md < minutesOf lhd then some CreateErr.startBeforeOpens
      else if minutesOf lhf < mf then some CreateErr.endAfterClose
      else none := by
  unfold windowCheck
  dsimp only
  rw [hl1, hl2]
  dsimp only
  rw [if_neg hnw]

/-- The window check against a line whose window wraps midnight. -/
theorem windowCheck_wrapping (l : Ligne) (lhd lhf : HM) (md mf : Int)
    (hl1 : l.heureDebut = some lhd) (hl2 : l.heureFin = some lhf)
    (hw : minutesOf lhf < minutesOf lhd) :
    windowCheck (some l) md mf =
      if md ≥ minutesOf lhd ∨ md ≤ minutesOf lhf then
        if mf > minutesOf lhf ∧ md ≥ minutesOf lhd ∧ mf < md then
          some CreateErr.endAfterCloseWrap
        else none
      else some CreateErr.startOutsideWindow := by
  unfold windowCheck
  dsimp only
  rw [hl1, hl2]
  dsimp only
  rw [if_pos hw]

/-! ### Claims -/

/-- C1: for a trip-creation request with all required fields present and
well-formed `"HH:MM"` times, the computed duration is the spec's formula
(`end - start`, or `(1440 - start) + end` when `end < start`), the request
fails with the duration-exceeds error exactly when that duration is greater
than 600 minutes, and on that failure the store is unchanged and no
persistence operation at all (in particular no write) has happened. -/
theorem C1_duration_limit (db : Db) (today freshId : String)
    (b : CreateServiceReq) (sid : String) (hd hf : HM)
    (hs : b.sensId = some sid) (hsid : ¬ sid = "")
    (hhd : b.heureDebut = some hd) (hhf : b.heureFin = some hf)
    (hw1 : wellFormed hd) (hw2 : wellFormed hf) :
    ((postServicesHierarchie db today freshId b).outcome =
        CreateOutcome.error CreateErr.durationExceeds ↔
      claimDuration (minutesOf hd) (minutesOf hf) > 600) ∧
    (claimDuration (minutesOf hd) (minutesOf hf) > 600 →
      (postServicesHierarchie db today freshId b).db = db ∧
        (postServicesHierarchie db today freshId b).trace = []) := by
  rw [post_eq_createValidated db today freshId b sid hd hf hs hsid hhd hhf,
    ← dureeService_eq_claimDuration]
  rcases createValidated_cases db today freshId sid hd hf b.ligneId b.date b.statut with
    ⟨h1, heq⟩ | ⟨h1, h2, heq⟩ | ⟨h1, h2, hfl, heq⟩ | ⟨h1, h2, lg, hfl, e, hwc, heq⟩ |
    ⟨h1, h2, lg, hfl, hwc, ⟨s, hdup, heq⟩ | ⟨hdup, heq⟩⟩
  · simp [heq, h1]
  · simp [heq, h1]
  · simp [heq, h1]
  · rcases windowCheck_mem_cases _ _ _ e hwc with rfl | rfl | rfl | rfl <;> simp [heq, h1]
  · simp [heq, h1]
  · simp [heq, h1]

/-- C1 witness: the spec's example `start=22:00, end=09:00` has duration
660 > 600 and is rejected with the duration error, leaving the store
untouched. -/
theorem C1_duration_limit_witness :
    ((postServicesHierarchie ⟨[], []⟩ "2024-01-01" "new1"
        ⟨some "s1", none, some ⟨22, 0⟩, some ⟨9, 0⟩, none, none⟩).outcome =
      CreateOutcome.error CreateErr.durationExceeds ↔
        claimDuration (minutesOf ⟨22, 0⟩) (minutesOf ⟨9, 0⟩) > 600) ∧
    (claimDuration (minutesOf ⟨22, 0⟩) (minutesOf ⟨9, 0⟩) > 600 →
      (postServicesHierarchie ⟨[], []⟩ "2024-01-01" "new1"
          ⟨some "s1", none, some ⟨22, 0⟩, some ⟨9, 0⟩, none, none⟩).db = ⟨[], []⟩ ∧
        (postServicesHierarchie ⟨[], []⟩ "2024-01-01" "new1"
            ⟨some "s1", none, some ⟨22, 0⟩, some ⟨9, 0⟩, none, none⟩).trace = []) :=
  C1_duration_limit ⟨[], []⟩ "2024-01-01" "new1"
    ⟨some "s1", none, some ⟨22, 0⟩, some ⟨9, 0⟩, none, none⟩ "s1" ⟨22, 0⟩ ⟨9, 0⟩
    rfl (by decide) rfl rfl (by decide) (by decide)

/-- C9: with required fields present and well-formed times, the
end-before-start error (duration ≤ 0) is returned exactly when start and end
denote the same minute; an end strictly earlier than the start makes the
duration the strictly positive midnight-crossing span, so such a trip is
never rejected by this error. -/
theorem C9_endBeforeStart_iff_equal (db : Db) (today freshId : String)
    (b : CreateServiceReq) (sid : String) (hd hf : HM)
    (hs : b.sensId = some sid) (hsid : ¬ sid = "")
    (hhd : b.heureDebut = some hd) (hhf : b.heureFin = some hf)
    (hw1 : wellFormed hd) (hw2 : wellFormed hf) :
    ((postServicesHierarchie db today freshId b).outcome =
        CreateOutcome.error CreateErr.endBeforeStart ↔
      minutesOf hd = minutesOf hf) ∧
    (minutesOf hf < minutesOf hd →
      0 < dureeService (minutesOf hd) (minutesOf hf)) := by
  have hmd : minutesOf hd < 1440 := minutesOf_lt_1440 hd hw1
  have hmf : 0 ≤ minutesOf hf := minutesOf_nonneg hf
  have hiff := dureeService_nonpos_iff (minutesOf hd) (minutesOf hf) hmf hmd
  constructor
  · rw [post_eq_createValidated db today freshId b sid hd hf hs hsid hhd hhf]
    rcases createValidated_cases db today freshId sid hd hf b.ligneId b.date b.statut with
      ⟨h1, heq⟩ | ⟨h1, h2, heq⟩ | ⟨h1, h2, hfl, heq⟩ | ⟨h1, h2, lg, hfl, e, hwc, heq⟩ |
      ⟨h1, h2, lg, hfl, hwc, ⟨s, hdup, heq⟩ | ⟨hdup, heq⟩⟩
    · have hne : ¬ minutesOf hd = minutesOf hf := fun hm => by
        have := hiff.mpr hm; omega
      simp [heq, hne]
    · simp [heq, hiff.mp h2]
    · have hne : ¬ minutesOf hd = minutesOf hf := fun hm => by
        have := hiff.mpr hm; omega
      simp [heq, hne]
    · have hne : ¬ minutesOf hd = minutesOf hf := fun hm => by
        have := hiff.mpr hm; omega
      rcases windowCheck_mem_cases _ _ _ e hwc with rfl | rfl | rfl | rfl <;>
        simp [heq, hne]
    · have hne : ¬ minutesOf hd = minutesOf hf := fun hm => by
        have := hiff.mpr hm; omega
      simp [heq, hne]
    · have hne : ¬ minutesOf hd = minutesOf hf := fun hm => by
        have := hiff.mpr hm; omega
      simp [heq, hne]
  · intro hlt
    unfold dureeService
    rw [if_pos (by omega)]
    omega

/-- C9 witness: a trip `22:00`–`21:00` (end strictly before start) is not an
end-before-start failure, while `09:00`–`09:00` would be the equal-minute
case; duration of the former is the positive wraparound span 1380. -/
theorem C9_endBeforeStart_iff_equal_witness :
    ((postServicesHierarchie ⟨[], []⟩ "2024-01-01" "new1"
        ⟨some "s1", none, some ⟨22, 0⟩, some ⟨21, 0⟩, none, none⟩).outcome =
      CreateOutcome.error CreateErr.endBeforeStart ↔
        minutesOf ⟨22, 0⟩ = minutesOf ⟨21, 0⟩) ∧
    (minutesOf ⟨21, 0⟩ < minutesOf ⟨22, 0⟩ →
      0 < dureeService (minutesOf ⟨22, 0⟩) (minutesOf ⟨21, 0⟩)) :=
  C9_endBeforeStart_iff_equal ⟨[], []⟩ "2024-01-01" "new1"
    ⟨some "s1", none, some ⟨22, 0⟩, some ⟨21, 0⟩, none, none⟩ "s1" ⟨22, 0⟩ ⟨21, 0⟩
    rfl (by decide) rfl rfl (by decide) (by decide)

/-- C6: a request missing (or blank in) `sensId`, `heureDebut` or `heureFin`
fails with the missing-field error, with an empty persistence trace — no
line lookup, no duplicate lookup, no write — and an unchanged store. -/
theorem C6_missing_field (db : Db) (today freshId : String)
    (b : CreateServiceReq)
    (h : isBlank b.sensId = true ∨ b.heureDebut = none ∨ b.heureFin = none) :
    postServicesHierarchie db today freshId b =
      ⟨CreateOutcome.error CreateErr.missingFields, [], db⟩ := by
  unfold postServicesHierarchie
  rcases h with h | h | h
  · rw [if_pos (by simp [h])]
  · rw [if_pos (by simp [h])]
  · rw [if_pos (by simp [h])]

/-- C6 witness: the empty request is a missing-field failure touching no
persistence. -/
theorem C6_missing_field_witness :
    postServicesHierarchie ⟨[], []⟩ "2024-01-01" "new1"
        ⟨none, none, none, none, none, none⟩ =
      ⟨CreateOutcome.error CreateErr.missingFields, [], ⟨[], []⟩⟩ :=
  C6_missing_field ⟨[], []⟩ "2024-01-01" "new1"
    ⟨none, none, none, none, none, none⟩ (Or.inl rfl)

/-- C5: on every request, the store is unchanged and no write is traced
whenever the outcome is an error or a duplicate, and a created outcome
traces exactly one write and appends exactly the one created row. -/
theorem C5_write_discipline (db : Db) (today freshId : String)
    (b : CreateServiceReq) :
    match (postServicesHierarchie db today freshId b).outcome with
    | CreateOutcome.error _ =>
        (postServicesHierarchie db today freshId b).db = db ∧
        writeCount (postServicesHierarchie db today freshId b).trace = 0
    | CreateOutcome.duplicate _ =>
        (postServicesHierarchie db today freshId b).db = db ∧
        writeCount (postServicesHierarchie db today freshId b).trace = 0
    | CreateOutcome.created s =>
        writeCount (postServicesHierarchie db today freshId b).trace = 1 ∧
        (postServicesHierarchie db today freshId b).db.lignes = db.lignes ∧
        (postServicesHierarchie db today freshId b).db.services =
          db.services ++ [s] := by
  by_cases hblank :
      (isBlank b.sensId || b.heureDebut.isNone || b.heureFin.isNone) = true
  · unfold postServicesHierarchie
    rw [if_pos hblank]
    exact ⟨rfl, rfl⟩
  · rcases hs : b.sensId with _ | sid
    · exact absurd (by simp [isBlank, hs]) hblank
    rcases hhd : b.heureDebut with _ | hd
    · exact absurd (by simp [hhd]) hblank
    rcases hhf : b.heureFin with _ | hf
    · exact absurd (by simp [hhf]) hblank
    have hsid : ¬ sid = "" := fun h => hblank (by simp [isBlank, hs, h])
    rw [post_eq_createValidated db today freshId b sid hd hf hs hsid hhd hhf]
    rcases createValidated_cases db today freshId sid hd hf b.ligneId b.date b.statut with
      ⟨h1, heq⟩ | ⟨h1, h2, heq⟩ | ⟨h1, h2, hfl, heq⟩ | ⟨h1, h2, lg, hfl, e, hwc, heq⟩ |
      ⟨h1, h2, lg, hfl, hwc, ⟨s, hdup, heq⟩ | ⟨hdup, heq⟩⟩
    · rw [heq]; exact ⟨rfl, rfl⟩
    · rw [heq]; exact ⟨rfl, rfl⟩
    · rw [heq]; exact ⟨rfl, rfl⟩
    · rw [heq]; exact ⟨rfl, rfl⟩
    · rw [heq]; exact ⟨rfl, rfl⟩
    · rw [heq]; exact ⟨rfl, rfl, rfl⟩

/-- C2 counterexample: with line window 08:00–20:00 configured, the trip
09:00–21:00 the claim cites is rejected by the earlier duration check (its
duration is 720 > 600 minutes), not with the end-after-line-closes error
the claim asserts for it. -/
theorem C2_counterexample :
    (postServicesHierarchie ⟨[⟨"l1", some ⟨8, 0⟩, some ⟨20, 0⟩⟩], []⟩ "2024-01-01"
        "new1" ⟨some "s1", some "l1", some ⟨9, 0⟩, some ⟨21, 0⟩, none, none⟩).outcome =
      CreateOutcome.error CreateErr.durationExceeds ∧
    CreateErr.durationExceeds ≠ CreateErr.endAfterClose :=
  ⟨rfl, by decide⟩

/-- C2 (amended): for a request past the duration checks whose line declares
a non-wrapping window, trip start < line start fails with the
start-before-line-opens error; otherwise trip end > line end fails with the
end-after-line-closes error; otherwise the window check passes (the request
proceeds to the duplicate lookup, answering duplicate or created).  With
window 08:00–20:00 a trip 07:00–09:00 fails with the start error and a trip
09:00–10:00 passes, as the claim says; the claim's trip 09:00–21:00 however
has duration 720 > 600 and fails the duration check instead — a trip within
the cap, such as 15:00–21:00, exhibits the end error. -/
theorem C2_nonwrapping_window (db : Db) (today freshId : String)
    (b : CreateServiceReq) (sid lid : String) (hd hf : HM) (lg : Ligne)
    (lhd lhf : HM)
    (hs : b.sensId = some sid) (hsid : ¬ sid = "")
    (hhd : b.heureDebut = some hd) (hhf : b.heureFin = some hf)
    (hlid : b.ligneId = some lid)
    (hfind : db.lignes.find? (fun l => l.id == lid) = some lg)
    (hl1 : lg.heureDebut = some lhd) (hl2 : lg.heureFin = some lhf)
    (hnw : ¬ minutesOf lhf < minutesOf lhd)
    (h1 : ¬ dureeService (minutesOf hd) (minutesOf hf) > 600)
    (h2 : ¬ dureeService (minutesOf hd) (minutesOf hf) ≤ 0) :
    (minutesOf hd < minutesOf lhd →
      (postServicesHierarchie db today freshId b).outcome =
        CreateOutcome.error CreateErr.startBeforeOpens) ∧
    (¬ minutesOf hd < minutesOf lhd → minutesOf lhf < minutesOf hf →
      (postServicesHierarchie db today freshId b).outcome =
        CreateOutcome.error CreateErr.endAfterClose) ∧
    (¬ minutesOf hd < minutesOf lhd → ¬ minutesOf lhf < minutesOf hf →
      ∃ s,
        (postServicesHierarchie db today freshId b).outcome =
            CreateOutcome.duplicate s ∨
          (postServicesHierarchie db today freshId b).outcome =
            CreateOutcome.created s) := by
  rw [post_eq_createValidated db today freshId b sid hd hf hs hsid hhd hhf]
  have hfl : findLigne db b.ligneId = Except.ok (some lg) := by
    rw [hlid]; simp [findLigne, hfind]
  have hwc :=
    windowCheck_nonwrapping lg lhd lhf (minutesOf hd) (minutesOf hf) hl1 hl2 hnw
  refine ⟨?_, ?_, ?_⟩
  · intro hlt
    have hwin : windowCheck (some lg) (minutesOf hd) (minutesOf hf) =
        some CreateErr.startBeforeOpens := by
      rw [hwc, if_pos hlt]
    rw [createValidated_of_windowError db today freshId sid hd hf b.ligneId b.date
      b.statut (some lg) _ h1 h2 hfl hwin]
  · intro hge hend
    have hwin : windowCheck (some lg) (minutesOf hd) (minutesOf hf) =
        some CreateErr.endAfterClose := by
      rw [hwc, if_neg hge, if_pos hend]
    rw [createValidated_of_windowError db today freshId sid hd hf b.ligneId b.date
      b.statut (some lg) _ h1 h2 hfl hwin]
  · intro hge hend
    have hwin : windowCheck (some lg) (minutesOf hd) (minutesOf hf) =
        none := by
      rw [hwc, if_neg hge, if_neg hend]
    rcases hdup : db.services.find? (dupMatches sid (dateOptOf b.date) hd hf)
      with _ | s
    · exact ⟨newService today freshId sid hd hf b.ligneId b.date b.statut,
        Or.inr (by
          rw [createValidated_of_new db today freshId sid hd hf b.ligneId b.date
            b.statut (some lg) h1 h2 hfl hwin hdup])⟩
    · exact ⟨s, Or.inl (by
        rw [createValidated_of_dup db today freshId sid hd hf b.ligneId b.date
          b.statut (some lg) s h1 h2 hfl hwin hdup])⟩

/-- C2 witness: window 08:00–20:00; the trip 07:00–09:00 instantiates the
amended theorem (start error), and the closed extras show 15:00–21:00
failing with the end error and 09:00–10:00 being created. -/
theorem C2_nonwrapping_window_witness :
    ((minutesOf ⟨7, 0⟩ < minutesOf ⟨8, 0⟩ →
      (postServicesHierarchie ⟨[⟨"l1", some ⟨8, 0⟩, some ⟨20, 0⟩⟩], []⟩ "2024-01-01"
          "new1" ⟨some "s1", some "l1", some ⟨7, 0⟩, some ⟨9, 0⟩, none, none⟩).outcome =
        CreateOutcome.error CreateErr.startBeforeOpens) ∧
    (¬ minutesOf ⟨7, 0⟩ < minutesOf ⟨8, 0⟩ → minutesOf ⟨20, 0⟩ < minutesOf ⟨9, 0⟩ →
      (postServicesHierarchie ⟨[⟨"l1", some ⟨8, 0⟩, some ⟨20, 0⟩⟩], []⟩ "2024-01-01"
          "new1" ⟨some "s1", some "l1", some ⟨7, 0⟩, some ⟨9, 0⟩, none, none⟩).outcome =
        CreateOutcome.error CreateErr.endAfterClose) ∧
    (¬ minutesOf ⟨7, 0⟩ < minutesOf ⟨8, 0⟩ → ¬ minutesOf ⟨20, 0⟩ < minutesOf ⟨9, 0⟩ →
      ∃ s,
        (postServicesHierarchie ⟨[⟨"l1", some ⟨8, 0⟩, some ⟨20, 0⟩⟩], []⟩ "2024-01-01"
            "new1" ⟨some "s1", some "l1", some ⟨7, 0⟩, some ⟨9, 0⟩, none, none⟩).outcome =
            CreateOutcome.duplicate s ∨
          (postServicesHierarchie ⟨[⟨"l1", some ⟨8, 0⟩, some ⟨20, 0⟩⟩], []⟩ "2024-01-01"
              "new1" ⟨some "s1", some "l1", some ⟨7, 0⟩, some ⟨9, 0⟩, none, none⟩).outcome =
            CreateOutcome.created s)) ∧
    (postServicesHierarchie ⟨[⟨"l1", some ⟨8, 0⟩, some ⟨20, 0⟩⟩], []⟩ "2024-01-01"
        "new1" ⟨some "s1", some "l1", some ⟨15, 0⟩, some ⟨21, 0⟩, none, none⟩).outcome =
      CreateOutcome.error CreateErr.endAfterClose ∧
    (postServicesHierarchie ⟨[⟨"l1", some ⟨8, 0⟩, some ⟨20, 0⟩⟩], []⟩ "2024-01-01"
        "new1" ⟨some "s1", some "l1", some ⟨9, 0⟩, some ⟨10, 0⟩, none, none⟩).outcome =
      CreateOutcome.created
        (newService "2024-01-01" "new1" "s1" ⟨9, 0⟩ ⟨10, 0⟩ (some "l1") none none) :=
  ⟨C2_nonwrapping_window ⟨[⟨"l1", some ⟨8, 0⟩, some ⟨20, 0⟩⟩], []⟩ "2024-01-01" "new1"
      ⟨some "s1", some "l1", some ⟨7, 0⟩, some ⟨9, 0⟩, none, none⟩ "s1" "l1"
      ⟨7, 0⟩ ⟨9, 0⟩ ⟨"l1", some ⟨8, 0⟩, some ⟨20, 0⟩⟩ ⟨8, 0⟩ ⟨20, 0⟩
      rfl (by decide) rfl rfl rfl rfl rfl rfl (by decide) (by decide) (by decide),
    rfl, rfl⟩

/-- C3: for a request past the duration checks whose line declares a
wrapping window (lineEnd < lineStart), the start is accepted exactly when
start ≥ lineStart or start ≤ lineEnd (otherwise the start-outside-window
error is answered), and a trip that itself wraps midnight while starting in
the post-open segment and ending past lineEnd is answered the
end-after-line-closes error. -/
theorem C3_wrapping_window (db : Db) (today freshId : String)
    (b : CreateServiceReq) (sid lid : String) (hd hf : HM) (lg : Ligne)
    (lhd lhf : HM)
    (hs : b.sensId = some sid) (hsid : ¬ sid = "")
    (hhd : b.heureDebut = some hd) (hhf : b.heureFin = some hf)
    (hlid : b.ligneId = some lid)
    (hfind : db.lignes.find? (fun l => l.id == lid) = some lg)
    (hl1 : lg.heureDebut = some lhd) (hl2 : lg.heureFin = some lhf)
    (hwrap : minutesOf lhf < minutesOf lhd)
    (h1 : ¬ dureeService (minutesOf hd) (minutesOf hf) > 600)
    (h2 : ¬ dureeService (minutesOf hd) (minutesOf hf) ≤ 0) :
    ((postServicesHierarchie db today freshId b).outcome =
        CreateOutcome.error CreateErr.startOutsideWindow ↔
      ¬ (minutesOf hd ≥ minutesOf lhd ∨ minutesOf hd ≤ minutesOf lhf)) ∧
    (minutesOf hf < minutesOf hd → minutesOf hd ≥ minutesOf lhd →
      minutesOf lhf < minutesOf hf →
      (postServicesHierarchie db today freshId b).outcome =
        CreateOutcome.error CreateErr.endAfterCloseWrap) := by
  rw [post_eq_createValidated db today freshId b sid hd hf hs hsid hhd hhf]
  have hfl : findLigne db b.ligneId = Except.ok (some lg) := by
    rw [hlid]; simp [findLigne, hfind]
  have hwc :=
    windowCheck_wrapping lg lhd lhf (minutesOf hd) (minutesOf hf) hl1 hl2 hwrap
  by_cases hstart : minutesOf hd ≥ minutesOf lhd ∨ minutesOf hd ≤ minutesOf lhf
  · by_cases hwcond : minutesOf hf > minutesOf lhf ∧ minutesOf hd ≥ minutesOf lhd ∧
        minutesOf hf < minutesOf hd
    · have hwin : windowCheck (some lg) (minutesOf hd) (minutesOf hf) =
          some CreateErr.endAfterCloseWrap := by
        rw [hwc, if_pos hstart, if_pos hwcond]
      rw [createValidated_of_windowError db today freshId sid hd hf b.ligneId b.date
        b.statut (some lg) _ h1 h2 hfl hwin]
      constructor
      · simp [hstart]
      · intro _ _ _; rfl
    · have hwin : windowCheck (some lg) (minutesOf hd) (minutesOf hf) =
          none := by
        rw [hwc, if_pos hstart, if_neg hwcond]
      constructor
      · rcases hdup : db.services.find? (dupMatches sid (dateOptOf b.date) hd hf)
          with _ | s
        · rw [createValidated_of_new db today freshId sid hd hf b.ligneId b.date
            b.statut (some lg) h1 h2 hfl hwin hdup]
          simp [hstart]
        · rw [createValidated_of_dup db today freshId sid hd hf b.ligneId b.date
            b.statut (some lg) s h1 h2 hfl hwin hdup]
          simp [hstart]
      · intro ha hb hc
        exact absurd ⟨hc, hb, ha⟩ hwcond
  · have hwin : windowCheck (some lg) (minutesOf hd) (minutesOf hf) =
        some CreateErr.startOutsideWindow := by
      rw [hwc, if_neg hstart]
    rw [createValidated_of_windowError db today freshId sid hd hf b.ligneId b.date
      b.statut (some lg) _ h1 h2 hfl hwin]
    constructor
    · simp [hstart]
    · intro _ hb _
      exact absurd (Or.inl hb) hstart

/-- C3 witness: window 05:00–02:00; a trip starting 03:00 instantiates the
theorem (start in the closed gap, start-outside-window error), and the
closed extras show trips starting 01:00 and 22:00 being created. -/
theorem C3_wrapping_window_witness :
    (((postServicesHierarchie ⟨[⟨"lw", some ⟨5, 0⟩, some ⟨2, 0⟩⟩], []⟩ "2024-01-01"
          "new1" ⟨some "s1", some "lw", some ⟨3, 0⟩, some ⟨4, 0⟩, none, none⟩).outcome =
        CreateOutcome.error CreateErr.startOutsideWindow ↔
      ¬ (minutesOf ⟨3, 0⟩ ≥ minutesOf ⟨5, 0⟩ ∨ minutesOf ⟨3, 0⟩ ≤ minutesOf ⟨2, 0⟩)) ∧
    (minutesOf ⟨4, 0⟩ < minutesOf ⟨3, 0⟩ → minutesOf ⟨3, 0⟩ ≥ minutesOf ⟨5, 0⟩ →
      minutesOf ⟨2, 0⟩ < minutesOf ⟨4, 0⟩ →
      (postServicesHierarchie ⟨[⟨"lw", some ⟨5, 0⟩, some ⟨2, 0⟩⟩], []⟩ "2024-01-01"
          "new1" ⟨some "s1", some "lw", some ⟨3, 0⟩, some ⟨4, 0⟩, none, none⟩).outcome =
        CreateOutcome.error CreateErr.endAfterCloseWrap)) ∧
    (postServicesHierarchie ⟨[⟨"lw", some ⟨5, 0⟩, some ⟨2, 0⟩⟩], []⟩ "2024-01-01"
        "new1" ⟨some "s1", some "lw", some ⟨1, 0⟩, some ⟨2, 0⟩, none, none⟩).outcome =
      CreateOutcome.created
        (newService "2024-01-01" "new1" "s1" ⟨1, 0⟩ ⟨2, 0⟩ (some "lw") none none) ∧
    (postServicesHierarchie ⟨[⟨"lw", some ⟨5, 0⟩, some ⟨2, 0⟩⟩], []⟩ "2024-01-01"
        "new1" ⟨some "s1", some "lw", some ⟨22, 0⟩, some ⟨23, 0⟩, none, none⟩).outcome =
      CreateOutcome.created
        (newService "2024-01-01" "new1" "s1" ⟨22, 0⟩ ⟨23, 0⟩ (some "lw") none none) :=
  ⟨C3_wrapping_window ⟨[⟨"lw", some ⟨5, 0⟩, some ⟨2, 0⟩⟩], []⟩ "2024-01-01" "new1"
      ⟨some "s1", some "lw", some ⟨3, 0⟩, some ⟨4, 0⟩, none, none⟩ "s1" "lw"
      ⟨3, 0⟩ ⟨4, 0⟩ ⟨"lw", some ⟨5, 0⟩, some ⟨2, 0⟩⟩ ⟨5, 0⟩ ⟨2, 0⟩
      rfl (by decide) rfl rfl rfl rfl rfl rfl (by decide) (by decide) (by decide),
    rfl, rfl⟩

/-- The duplicate filter with a provided date matches exactly on the four
fields (direction, date, start, end). -/
theorem dupMatches_some_iff (sid d : String) (hd hf : HM) (s : Service) :
    dupMatches sid (some d) hd hf s = true ↔
      (s.sensId = sid ∧ s.date = d ∧ s.heureDebut = hd ∧ s.heureFin = hf) := by
  unfold dupMatches
  simp only [Bool.and_eq_true, beq_iff_eq]
  tauto

/-- The duplicate filter with an omitted date ignores the date column and
matches on (direction, start, end) only. -/
theorem dupMatches_none_iff (sid : String) (hd hf : HM) (s : Service) :
    dupMatches sid none hd hf s = true ↔
      (s.sensId = sid ∧ s.heureDebut = hd ∧ s.heureFin = hf) := by
  unfold dupMatches
  simp only [Bool.and_eq_true, beq_iff_eq]
  tauto

/-- C4 counterexample: the store holds one line with no configured operating
window and exactly one trip on it, dated 2024-01-01; a request referencing
that line, identical in direction and times but WITHOUT a date (so its
effective date is today, 2024-05-02, different from the date of every
stored trip) is nevertheless answered with the old row flagged duplicate,
and no write occurs — the claim's "any one field different performs a new
write" fails for the date field of dateless requests. -/
theorem C4_counterexample :
    postServicesHierarchie
        ⟨[⟨"l1", none, none⟩],
         [⟨"svc1", "s1", some "l1", ⟨8, 0⟩, ⟨9, 0⟩, "Planifiée", "2024-01-01"⟩]⟩
        "2024-05-02" "new1"
        ⟨some "s1", some "l1", some ⟨8, 0⟩, some ⟨9, 0⟩, none, none⟩ =
      ⟨CreateOutcome.duplicate
          ⟨"svc1", "s1", some "l1", ⟨8, 0⟩, ⟨9, 0⟩, "Planifiée", "2024-01-01"⟩,
       [DbOp.readLigne, DbOp.readDup],
       ⟨[⟨"l1", none, none⟩],
        [⟨"svc1", "s1", some "l1", ⟨8, 0⟩, ⟨9, 0⟩, "Planifiée", "2024-01-01"⟩]⟩⟩ ∧
    ("2024-01-01" : String) ≠ "2024-05-02" :=
  ⟨rfl, by decide⟩

/-- C4 (amended): for a request past validation (including the line lookup,
whose result carries no configured window or passes the window check), a
successful duplicate lookup returns the found row flagged duplicate with
the store unchanged, and a failed lookup performs the one write; when the
request provides a date the lookup matches exactly the trips agreeing on
all four of (direction, date, start, end) — so any field differing from
every stored trip forces a new write — but when the request omits the date
the lookup ignores the date column and matches on (direction, start, end)
alone, so a dateless request can be deduplicated against a trip stored
under a different date. -/
theorem C4_dedup (db : Db) (today freshId : String) (b : CreateServiceReq)
    (sid : String) (hd hf : HM) (lg? : Option Ligne)
    (hs : b.sensId = some sid) (hsid : ¬ sid = "")
    (hhd : b.heureDebut = some hd) (hhf : b.heureFin = some hf)
    (h1 : ¬ dureeService (minutesOf hd) (minutesOf hf) > 600)
    (h2 : ¬ dureeService (minutesOf hd) (minutesOf hf) ≤ 0)
    (hfl : findLigne db b.ligneId = Except.ok lg?)
    (hwc : windowCheck lg? (minutesOf hd) (minutesOf hf) = none) :
    (∀ s, db.services.find? (dupMatches sid (dateOptOf b.date) hd hf) = some s →
      postServicesHierarchie db today freshId b =
        ⟨CreateOutcome.duplicate s, [DbOp.readLigne, DbOp.readDup], db⟩) ∧
    (db.services.find? (dupMatches sid (dateOptOf b.date) hd hf) = none →
      postServicesHierarchie db today freshId b =
        ⟨CreateOutcome.created (newService today freshId sid hd hf b.ligneId b.date b.statut),
         [DbOp.readLigne, DbOp.readDup, DbOp.writeService],
         { db with services :=
             db.services ++ [newService today freshId sid hd hf b.ligneId b.date b.statut] }⟩) ∧
    (∀ d, dateOptOf b.date = some d →
      (db.services.find? (dupMatches sid (dateOptOf b.date) hd hf) = none ↔
        ∀ s ∈ db.services,
          ¬ (s.sensId = sid ∧ s.date = d ∧ s.heureDebut = hd ∧ s.heureFin = hf))) ∧
    (dateOptOf b.date = none →
      (db.services.find? (dupMatches sid (dateOptOf b.date) hd hf) = none ↔
        ∀ s ∈ db.services,
          ¬ (s.sensId = sid ∧ s.heureDebut = hd ∧ s.heureFin = hf))) := by
  refine ⟨?_, ?_, ?_, ?_⟩
  · intro s hdup
    rw [post_eq_createValidated db today freshId b sid hd hf hs hsid hhd hhf]
    exact createValidated_of_dup db today freshId sid hd hf b.ligneId b.date
      b.statut lg? s h1 h2 hfl hwc hdup
  · intro hdup
    rw [post_eq_createValidated db today freshId b sid hd hf hs hsid hhd hhf]
    exact createValidated_of_new db today freshId sid hd hf b.ligneId b.date
      b.statut lg? h1 h2 hfl hwc hdup
  · intro d hdate
    rw [hdate, List.find?_eq_none]
    constructor
    · intro hall s hm hc
      exact hall s hm ((dupMatches_some_iff sid d hd hf s).mpr hc)
    · intro hall s hm hp
      exact hall s hm ((dupMatches_some_iff sid d hd hf s).mp hp)
  · intro hdate
    rw [hdate, List.find?_eq_none]
    constructor
    · intro hall s hm hc
      exact hall s hm ((dupMatches_none_iff sid hd hf s).mpr hc)
    · intro hall s hm hp
      exact hall s hm ((dupMatches_none_iff sid hd hf s).mp hp)

/-- C4 witness: on a store with one windowless line and one trip on it, a
dated request identical to the stored row is answered as a duplicate with
no write; the characterizations instantiate at the same store. -/
theorem C4_dedup_witness :
    ((∀ s, (⟨[⟨"l1", none, none⟩],
          [⟨"svc1", "s1", some "l1", ⟨8, 0⟩, ⟨9, 0⟩, "Planifiée", "2024-01-01"⟩]⟩ : Db).services.find?
          (dupMatches "s1" (dateOptOf (some "2024-01-01")) ⟨8, 0⟩ ⟨9, 0⟩) = some s →
      postServicesHierarchie
          ⟨[⟨"l1", none, none⟩],
           [⟨"svc1", "s1", some "l1", ⟨8, 0⟩, ⟨9, 0⟩, "Planifiée", "2024-01-01"⟩]⟩
          "2024-05-02" "new1"
          ⟨some "s1", some "l1", some ⟨8, 0⟩, some ⟨9, 0⟩, some "2024-01-01", none⟩ =
        ⟨CreateOutcome.duplicate s, [DbOp.readLigne, DbOp.readDup],
         ⟨[⟨"l1", none, none⟩],
          [⟨"svc1", "s1", some "l1", ⟨8, 0⟩, ⟨9, 0⟩, "Planifiée", "2024-01-01"⟩]⟩⟩) ∧
    ((⟨[⟨"l1", none, none⟩],
          [⟨"svc1", "s1", some "l1", ⟨8, 0⟩, ⟨9, 0⟩, "Planifiée", "2024-01-01"⟩]⟩ : Db).services.find?
          (dupMatches "s1" (dateOptOf (some "2024-01-01")) ⟨8, 0⟩ ⟨9, 0⟩) = none →
      postServicesHierarchie
          ⟨[⟨"l1", none, none⟩],
           [⟨"svc1", "s1", some "l1", ⟨8, 0⟩, ⟨9, 0⟩, "Planifiée", "2024-01-01"⟩]⟩
          "2024-05-02" "new1"
          ⟨some "s1", some "l1", some ⟨8, 0⟩, some ⟨9, 0⟩, some "2024-01-01", none⟩ =
        ⟨CreateOutcome.created
            (newService "2024-05-02" "new1" "s1" ⟨8, 0⟩ ⟨9, 0⟩ (some "l1")
              (some "2024-01-01") none),
         [DbOp.readLigne, DbOp.readDup, DbOp.writeService],
         ⟨[⟨"l1", none, none⟩],
          [⟨"svc1", "s1", some "l1", ⟨8, 0⟩, ⟨9, 0⟩, "Planifiée", "2024-01-01"⟩,
           newService "2024-05-02" "new1" "s1" ⟨8, 0⟩ ⟨9, 0⟩ (some "l1")
             (some "2024-01-01") none]⟩⟩) ∧
    (∀ d, dateOptOf (some "2024-01-01") = some d →
      ((⟨[⟨"l1", none, none⟩],
          [⟨"svc1", "s1", some "l1", ⟨8, 0⟩, ⟨9, 0⟩, "Planifiée", "2024-01-01"⟩]⟩ : Db).services.find?
          (dupMatches "s1" (dateOptOf (some "2024-01-01")) ⟨8, 0⟩ ⟨9, 0⟩) = none ↔
        ∀ s ∈ (⟨[⟨"l1", none, none⟩],
            [⟨"svc1", "s1", some "l1", ⟨8, 0⟩, ⟨9, 0⟩, "Planifiée", "2024-01-01"⟩]⟩ : Db).services,
          ¬ (s.sensId = "s1" ∧ s.date = d ∧ s.heureDebut = ⟨8, 0⟩ ∧ s.heureFin = ⟨9, 0⟩))) ∧
    (dateOptOf (some "2024-01-01") = none →
      ((⟨[⟨"l1", none, none⟩],
          [⟨"svc1", "s1", some "l1", ⟨8, 0⟩, ⟨9, 0⟩, "Planifiée", "2024-01-01"⟩]⟩ : Db).services.find?
          (dupMatches "s1" (dateOptOf (some "2024-01-01")) ⟨8, 0⟩ ⟨9, 0⟩) = none ↔
        ∀ s ∈ (⟨[⟨"l1", none, none⟩],
            [⟨"svc1", "s1", some "l1", ⟨8, 0⟩, ⟨9, 0⟩, "Planifiée", "2024-01-01"⟩]⟩ : Db).services,
          ¬ (s.sensId = "s1" ∧ s.heureDebut = ⟨8, 0⟩ ∧ s.heureFin = ⟨9, 0⟩)))) :=
  C4_dedup
    ⟨[⟨"l1", none, none⟩],
     [⟨"svc1", "s1", some "l1", ⟨8, 0⟩, ⟨9, 0⟩, "Planifiée", "2024-01-01"⟩]⟩
    "2024-05-02" "new1"
    ⟨some "s1", some "l1", some ⟨8, 0⟩, some ⟨9, 0⟩, some "2024-01-01", none⟩
    "s1" ⟨8, 0⟩ ⟨9, 0⟩ (some ⟨"l1", none, none⟩)
    rfl (by decide) rfl rfl (by decide) (by decide) rfl rfl

/-- C7 counterexample: line window 08:00–20:00 (non-wrapping); the
midnight-crossing trip 23:00–00:30 passes every check and is persisted
(outcome created) although its start, 23:00, does not lie inside the window
(lineStart ≤ start ≤ lineEnd fails). -/
theorem C7_counterexample :
    (postServicesHierarchie ⟨[⟨"l1", some ⟨8, 0⟩, some ⟨20, 0⟩⟩], []⟩ "2024-01-01"
        "new1" ⟨some "s1", some "l1", some ⟨23, 0⟩, some ⟨0, 30⟩, none, none⟩).outcome =
      CreateOutcome.created
        (newService "2024-01-01" "new1" "s1" ⟨23, 0⟩ ⟨0, 30⟩ (some "l1") none none) ∧
    ¬ (minutesOf ⟨8, 0⟩ ≤ minutesOf ⟨23, 0⟩ ∧ minutesOf ⟨23, 0⟩ ≤ minutesOf ⟨20, 0⟩) :=
  ⟨rfl, by decide⟩

/-- C7 (amended): when the referenced line declares both window bounds and a
trip is persisted (outcome created), then for a wrapping window the start
satisfies start ≥ lineStart or start ≤ lineEnd, and for a non-wrapping
window the start is at or after lineStart AND the end is at or before
lineEnd — which places the start inside the window whenever the trip does
not itself cross midnight, but a midnight-crossing trip can be persisted
with its start after the window closes. -/
theorem C7_window_on_persist (db : Db) (today freshId : String)
    (b : CreateServiceReq) (sid lid : String) (hd hf : HM) (lg : Ligne)
    (lhd lhf : HM) (s : Service)
    (hs : b.sensId = some sid) (hsid : ¬ sid = "")
    (hhd : b.heureDebut = some hd) (hhf : b.heureFin = some hf)
    (hlid : b.ligneId = some lid)
    (hfind : db.lignes.find? (fun l => l.id == lid) = some lg)
    (hl1 : lg.heureDebut = some lhd) (hl2 : lg.heureFin = some lhf)
    (hout : (postServicesHierarchie db today freshId b).outcome =
      CreateOutcome.created s) :
    if minutesOf lhf < minutesOf lhd then
      minutesOf hd ≥ minutesOf lhd ∨ minutesOf hd ≤ minutesOf lhf
    else
      minutesOf lhd ≤ minutesOf hd ∧ minutesOf hf ≤ minutesOf lhf := by
  rw [post_eq_createValidated db today freshId b sid hd hf hs hsid hhd hhf] at hout
  rcases createValidated_cases db today freshId sid hd hf b.ligneId b.date b.statut with
    ⟨h1, heq⟩ | ⟨h1, h2, heq⟩ | ⟨h1, h2, hfl2, heq⟩ | ⟨h1, h2, lg0, hfl2, e, hwcs, heq⟩ |
    ⟨h1, h2, lg0, hfl2, hwcs, ⟨s2, hdup, heq⟩ | ⟨hdup, heq⟩⟩ <;> rw [heq] at hout
  · exact absurd hout (by simp)
  · exact absurd hout (by simp)
  · exact absurd hout (by simp)
  · exact absurd hout (by simp)
  · exact absurd hout (by simp)
  · have hfl : findLigne db b.ligneId = Except.ok (some lg) := by
      rw [hlid]; simp [findLigne, hfind]
    rw [hfl] at hfl2
    injection hfl2 with hlg0
    subst hlg0
    by_cases hwrap : minutesOf lhf < minutesOf lhd
    · rw [if_pos hwrap]
      rw [windowCheck_wrapping lg lhd lhf _ _ hl1 hl2 hwrap] at hwcs
      by_cases hstart : minutesOf hd ≥ minutesOf lhd ∨ minutesOf hd ≤ minutesOf lhf
      · exact hstart
      · rw [if_neg hstart] at hwcs
        exact absurd hwcs (by simp)
    · rw [if_neg hwrap]
      rw [windowCheck_nonwrapping lg lhd lhf _ _ hl1 hl2 hwrap] at hwcs
      by_cases hlt : minutesOf hd < minutesOf lhd
      · rw [if_pos hlt] at hwcs
        exact absurd hwcs (by simp)
      · rw [if_neg hlt] at hwcs
        by_cases hend : minutesOf lhf < minutesOf hf
        · rw [if_pos hend] at hwcs
          exact absurd hwcs (by simp)
        · exact ⟨by omega, by omega⟩

/-- C7 witness: window 08:00–20:00, trip 09:00–10:00 is created and the
non-wrapping bounds hold for it. -/
theorem C7_window_on_persist_witness :
    if minutesOf ⟨20, 0⟩ < minutesOf ⟨8, 0⟩ then
      minutesOf ⟨9, 0⟩ ≥ minutesOf ⟨8, 0⟩ ∨ minutesOf ⟨9, 0⟩ ≤ minutesOf ⟨20, 0⟩
    else
      minutesOf ⟨8, 0⟩ ≤ minutesOf ⟨9, 0⟩ ∧ minutesOf ⟨10, 0⟩ ≤ minutesOf ⟨20, 0⟩ :=
  C7_window_on_persist ⟨[⟨"l1", some ⟨8, 0⟩, some ⟨20, 0⟩⟩], []⟩ "2024-01-01" "new1"
    ⟨some "s1", some "l1", some ⟨9, 0⟩, some ⟨10, 0⟩, none, none⟩ "s1" "l1"
    ⟨9, 0⟩ ⟨10, 0⟩ ⟨"l1", some ⟨8, 0⟩, some ⟨20, 0⟩⟩ ⟨8, 0⟩ ⟨20, 0⟩
    (newService "2024-01-01" "new1" "s1" ⟨9, 0⟩ ⟨10, 0⟩ (some "l1") none none)
    rfl (by decide) rfl rfl rfl rfl rfl rfl rfl

/-- C8 counterexample: while NotReady, an OPTIONS preflight for a
non-allowlisted path is answered 200 by the CORS middleware registered
ahead of the readiness middleware — not rejected with 503 as the claim
states for every request outside the allowlist. -/
theorem C8_counterexample :
    dispatch false "OPTIONS" "/api/vehicules" = MwOutcome.respond 200 ∧
    noDbPaths.contains "/api/vehicules" = false ∧
    MwOutcome.respond 200 ≠ MwOutcome.respond 503 :=
  ⟨rfl, by decide, by decide⟩

/-- C8 (amended): while NotReady, no request for a path outside the
allowlist ever reaches a route handler (so no persistence-accessing handler
runs); every such request that is not an OPTIONS preflight is rejected with
503 (preflights are answered 200 by the CORS middleware first); and the
only transition of the readiness flag from NotReady to Ready is a
successful startup probe. -/
theorem C8_readiness_gate (method path : String) (hp : ¬ path ∈ noDbPaths) :
    dispatch false method path ≠ MwOutcome.handler ∧
    (¬ method = "OPTIONS" → dispatch false method path = MwOutcome.respond 503) ∧
    (∀ e, startupStep false e = true ↔ e = ProbeEvent.success) := by
  have hc : noDbPaths.contains path = false := by simpa using hp
  refine ⟨?_, ?_, ?_⟩
  · by_cases hm : method = "OPTIONS"
    · simp [dispatch, hm]
    · simp [dispatch, hm, hc, hp]
  · intro hm
    simp [dispatch, hm, hc, hp]
  · intro e
    cases e <;> simp [startupStep]

/-- C8 witness: a GET for /api/vehicules while NotReady. -/
theorem C8_readiness_gate_witness :
    dispatch false "GET" "/api/vehicules" ≠ MwOutcome.handler ∧
    (¬ ("GET" : String) = "OPTIONS" →
      dispatch false "GET" "/api/vehicules" = MwOutcome.respond 503) ∧
    (∀ e, startupStep false e = true ↔ e = ProbeEvent.success) :=
  C8_readiness_gate "GET" "/api/vehicules" (by decide)

/-- C10: the check-in endpoint marks the referenced service Terminée before
creating the check-in row; when the create then fails (here: the conductor
foreign key matches no stored conductor) the handler answers an error, no
check-in row is added, but the status change is NOT rolled back — the final
store still carries the service with status Terminée. -/
theorem C10_pointage_no_rollback (db : PointageDb) (freshId : String)
    (b : PointageReq) (sid cid vby : String) (svc : Service)
    (hs : b.serviceId = some sid) (hsid : ¬ sid = "")
    (hc : b.conducteurId = some cid) (hcid : ¬ cid = "")
    (hv : b.validatedBy = some vby) (hvby : ¬ vby = "")
    (hfind : db.services.find? (fun s => s.id == sid) = some svc)
    (hfk : db.conducteurs.contains cid = false) :
    (postPointages db freshId b).1 = PointageOutcome.error ∧
    (postPointages db freshId b).2.pointages = db.pointages ∧
    (postPointages db freshId b).2.services =
      db.services.map
        (fun s => if s.id == sid then { s with statut := "Terminée" } else s) ∧
    ∃ s, s ∈ (postPointages db freshId b).2.services ∧
      s.id = sid ∧ s.statut = "Terminée" := by
  have hpost : postPointages db freshId b =
      (PointageOutcome.error,
       { db with services :=
           db.services.map (fun s =>
             if s.id == sid then { s with statut := "Terminée" } else s) }) := by
    unfold postPointages
    rw [hs, hc, hv]
    rw [if_neg (by simp [isBlank, hsid, hcid, hvby])]
    dsimp only
    rw [if_neg (by rw [hfind]; simp)]
    rw [if_neg (by simpa using hfk)]
  have hmem : svc ∈ db.services := List.mem_of_find?_eq_some hfind
  have hid : (svc.id == sid) = true := by
    have h := List.find?_some hfind
    simpa using h
  refine ⟨by rw [hpost], by rw [hpost], by rw [hpost], ?_⟩
  refine ⟨{ svc with statut := "Terminée" }, ?_, ?_, rfl⟩
  · rw [hpost]
    have hmap := List.mem_map_of_mem
      (fun s => if s.id == sid then { s with statut := "Terminée" } else s) hmem
    dsimp only at hmap
    rw [if_pos hid] at hmap
    exact hmap
  · simpa using hid

/-- C10 witness: one stored service, no stored conductors; the check-in
create fails, the response is an error, there is no check-in row, and the
service ends up Terminée. -/
theorem C10_pointage_no_rollback_witness :
    (postPointages
        ⟨[⟨"svc1", "s1", none, ⟨8, 0⟩, ⟨9, 0⟩, "Planifiée", "2024-01-01"⟩], [], []⟩
        "p1" ⟨some "svc1", some "c1", some "Régulateur", none, false, false⟩).1 =
      PointageOutcome.error ∧
    (postPointages
        ⟨[⟨"svc1", "s1", none, ⟨8, 0⟩, ⟨9, 0⟩, "Planifiée", "2024-01-01"⟩], [], []⟩
        "p1" ⟨some "svc1", some "c1", some "Régulateur", none, false, false⟩).2.pointages =
      ([] : List Pointage) ∧
    (postPointages
        ⟨[⟨"svc1", "s1", none, ⟨8, 0⟩, ⟨9, 0⟩, "Planifiée", "2024-01-01"⟩], [], []⟩
        "p1" ⟨some "svc1", some "c1", some "Régulateur", none, false, false⟩).2.services =
      ([⟨"svc1", "s1", none, ⟨8, 0⟩, ⟨9, 0⟩, "Planifiée", "2024-01-01"⟩] : List Service).map
        (fun s => if s.id == "svc1" then { s with statut := "Terminée" } else s) ∧
    ∃ s, s ∈ (postPointages
        ⟨[⟨"svc1", "s1", none, ⟨8, 0⟩, ⟨9, 0⟩, "Planifiée", "2024-01-01"⟩], [], []⟩
        "p1" ⟨some "svc1", some "c1", some "Régulateur", none, false, false⟩).2.services ∧
      s.id = "svc1" ∧ s.statut = "Terminée" :=
  C10_pointage_no_rollback
    ⟨[⟨"svc1", "s1", none, ⟨8, 0⟩, ⟨9, 0⟩, "Planifiée", "2024-01-01"⟩], [], []⟩
    "p1" ⟨some "svc1", some "c1", some "Régulateur", none, false, false⟩
    "svc1" "c1" "Régulateur" ⟨"svc1", "s1", none, ⟨8, 0⟩, ⟨9, 0⟩, "Planifiée", "2024-01-01"⟩
    rfl (by decide) rfl (by decide) rfl (by decide) rfl rfl

end TCE
